import Mathlib

/-!
Shallow embedding of the client-side API access layer of the `news`
repository: the request service in `src/unnamed/part_011` (proxy-only
NewsAPI service with caching and retry), the direct/forwarding variant in
`src/src/services/newsApi.js`, and the preference resolver in
`src/unnamed/part_010` (`languages` module).

JavaScript strings are modelled as Lean `String`, JS numbers that flow
through `parseInt` as an explicit sum (`JsOpt`), the browser cache `Map`
as an association list, and `fetch` as an oracle supplied per call.
`URLSearchParams` serialization is modelled as plain `k=v&...` joining
(the model does not URL-encode; the claims only rely on the serialization
being a function of the parameter list).
-/

/-- Characters matched by the JavaScript regex class `\s` (and removed by
`String.prototype.trim`). -/
def jsIsWhitespace (c : Char) : Bool :=
  let n := c.toNat
  n == 9 || n == 10 || n == 11 || n == 12 || n == 13 || n == 32 || n == 160 ||
  n == 0x1680 || (0x2000 ≤ n && n ≤ 0x200A) || n == 0x2028 || n == 0x2029 ||
  n == 0x202F || n == 0x205F || n == 0x3000 || n == 0xFEFF

/-- Model of `String.prototype.trim`: drop leading and trailing JS whitespace. -/
def jsTrim (s : String) : String :=
  String.mk (((s.toList.dropWhile jsIsWhitespace).reverse.dropWhile jsIsWhitespace).reverse)

/-- Model of `String.prototype.toLowerCase`, restricted to the ASCII range
(the only range the embedded code compares against). -/
def jsToLower (s : String) : String :=
  String.mk (s.toList.map Char.toLower)

/-- Auxiliary for `jsIncludes`: does the pattern occur at the head of the list? -/
def startsWithChars : List Char → List Char → Bool
  | [], _ => true
  | _ :: _, [] => false
  | a :: as, b :: bs => a == b && startsWithChars as bs

/-- Auxiliary for `jsIncludes`: does the pattern occur anywhere in the list? -/
def containsChars (pat : List Char) : List Char → Bool
  | [] => startsWithChars pat []
  | c :: cs => startsWithChars pat (c :: cs) || containsChars pat cs

/-- Model of `String.prototype.includes`. -/
def jsIncludes (s pat : String) : Bool :=
  containsChars pat.toList s.toList

/-- Model of `Array.prototype.join(sep)`. -/
def joinWith (sep : String) : List String → String
  | [] => ""
  | [x] => x
  | x :: y :: rest => x ++ sep ++ joinWith sep (y :: rest)

/-- Serialization of a `URLSearchParams` parameter list (un-encoded model). -/
def paramsToString (ps : List (String × String)) : String :=
  joinWith "&" (ps.map (fun kv => kv.1 ++ "=" ++ kv.2))

/-- Whether an `Except` result is a success. -/
def isOkB {ε α : Type} : Except ε α → Bool
  | .ok _ => true
  | .error _ => false

/-- The value a caller passes for `page` / `pageSize`, summarized by what
`parseInt(x, 10)` does to it: the value is `undefined`/`null`, parses to
`NaN`, or parses to an integer. -/
inductive JsOpt where
  | undef
  | nan
  | int (n : Int)
deriving DecidableEq

/-- An article of the upstream JSON payload (only the fields the claims
mention; remaining fields do not influence any embedded operation). -/
structure Article where
  title : String
  url : String
deriving DecidableEq

/-- An upstream response body `{ status, totalResults, articles }`. -/
structure Payload where
  status : String
  totalResults : Int
  articles : List Article
deriving DecidableEq

/-- Outcome of one `fetch` call: a 2xx response with parsed JSON body, a
non-2xx response (`response.ok` false) with status and statusText, or a
rejection of the `fetch` promise carrying the error message. -/
inductive NetResponse where
  | ok (body : Payload)
  | httpErr (status : Nat) (statusText : String)
  | netFail (message : String)

/-- An outgoing HTTP request as built by the service: URL and headers. -/
structure Request where
  url : String
  headers : List (String × String)
deriving DecidableEq

/-- One entry of the `LANGUAGES` configuration object (`languages` module). -/
structure LanguageConfig where
  code : String
  name : String
  flag : String
  apiLanguage : String
  countries : List String
  defaultCountry : String
deriving DecidableEq

/-- The `LANGUAGES` object of `src/unnamed/part_010`, as a lookup by key. -/
def LANGUAGES : String → Option LanguageConfig
  | "en" => some ⟨"en", "English", "🇺🇸", "en", ["us", "gb", "au", "ca"], "us"⟩
  | "pt" => some ⟨"pt", "Português", "🇵🇹", "pt", ["pt", "br"], "pt"⟩
  | "es" => some ⟨"es", "Español", "🇪🇸", "es", ["es", "mx", "ar"], "es"⟩
  | "fr" => some ⟨"fr", "Français", "🇫🇷", "fr", ["fr", "ca"], "fr"⟩
  | "de" => some ⟨"de", "Deutsch", "🇩🇪", "de", ["de", "at", "ch"], "de"⟩
  | "it" => some ⟨"it", "Italiano", "🇮🇹", "it", ["it"], "it"⟩
  | _ => none

/-- The persisted `selectedNewsSourcesByLanguage` localStorage entry, as the
service observes it: absent, present but not valid JSON (`JSON.parse`
throws), or parsed into an object mapping language codes to arrays. -/
inductive StoredSources where
  | absent
  | malformed
  | parsed (entries : List (String × List String))

/-- `getSelectedSourcesForLanguage` of `src/unnamed/part_010`: read the
stored mapping, returning `[]` when the key is absent, the JSON is
malformed, or the language has no entry (`data[languageCode] || []`). -/
def getSelectedSourcesForLanguage (store : StoredSources) (languageCode : String) : List String :=
  match store with
  | .absent => []
  | .malformed => []
  | .parsed entries =>
    match entries.lookup languageCode with
    | some sources => sources
    | none => []

/-- `getCurrentLanguage` of `src/unnamed/part_010`: saved language if it is a
known profile, else the browser language prefix if known, else `"en"`. -/
def getCurrentLanguage (saved : Option String) (browserLanguage : String) : String :=
  match saved with
  | some l =>
    if (LANGUAGES l).isSome then l
    else
      let browserLang := jsToLower (String.mk (browserLanguage.toList.take 2))
      if (LANGUAGES browserLang).isSome then browserLang else "en"
  | none =>
    let browserLang := jsToLower (String.mk (browserLanguage.toList.take 2))
    if (LANGUAGES browserLang).isSome then browserLang else "en"

/-- The `validCategories` array shared by both service files. -/
def validCategories : List String :=
  ["business", "entertainment", "general", "health", "science",
   "sports", "technology", "all"]

/-- `validateCategory` (identical in `src/unnamed/part_011` and
`src/src/services/newsApi.js`): empty input is `undefined`, otherwise the
lowercased category must be in `validCategories`. -/
def validateCategory (category : String) : Except String (Option String) :=
  if category = "" then .ok none
  else if validCategories.contains (jsToLower category) then .ok (some (jsToLower category))
  else .error ("Invalid category: " ++ category)

/-- The `options.category ? validateCategory(options.category) : undefined`
step of `fetchTopHeadlines` (absent or empty-string category is falsy). -/
def categoryOf (optCat : Option String) : Except String (Option String) :=
  match optCat with
  | none => .ok none
  | some c => if c = "" then .ok none else validateCategory c

/-- `validatePageNumber` (identical in both service files): undefined/null
pass through as undefined; `NaN` or a value below 1 or above 100 throws. -/
def validatePageNumber (page : JsOpt) : Except String (Option Int) :=
  match page with
  | .undef => .ok none
  | .nan => .error "Page number must be a positive integer"
  | .int n =>
    if n < 1 then .error "Page number must be a positive integer"
    else if n > 100 then .error "Page number cannot exceed 100"
    else .ok (some n)

/-- The `Math.min(Math.max(parseInt(options.pageSize, 10) || 20, 1), 100)`
expression of both service files. `parseInt` yielding `NaN` or `0` is falsy,
so `|| 20` substitutes the default before clamping. -/
def resolvePageSize (pageSize : JsOpt) : Int :=
  let base : Int :=
    match pageSize with
    | .int n => if n = 0 then 20 else n
    | _ => 20
  min (max base 1) 100

/-- The `options.language || getCurrentLanguage()` step: an absent or
empty-string language option falls back to the current language. -/
def resolveLang (optLang : Option String) (currentLang : String) : String :=
  match optLang with
  | some l => if l = "" then currentLang else l
  | none => currentLang

/-- The `validSortMethods` array of `searchNews`. -/
def validSortMethods : List String := ["relevancy", "popularity", "publishedAt"]

/-- The `validSortMethods.includes(options.sortBy) ? options.sortBy :
'publishedAt'` step of `searchNews`. -/
def resolveSortBy (optSort : Option String) : String :=
  match optSort with
  | some s => if validSortMethods.contains s then s else "publishedAt"
  | none => "publishedAt"

/-- Options accepted by `fetchTopHeadlines`. -/
structure HeadlineOptions where
  language : Option String
  category : Option String
  page : JsOpt
  pageSize : JsOpt

/-- Options accepted by `searchNews`. -/
structure SearchOptions where
  q : Option String
  language : Option String
  sortBy : Option String
  page : JsOpt
  pageSize : JsOpt

/-- The validation and `URLSearchParams` construction phase of
`fetchTopHeadlines` (identical in both service files): resolve the
language, validate category and page, clamp pageSize, then append
`language`, `pageSize`, conditionally `page`, conditionally `category`
(omitted when it is `all`), and conditionally `sources`. -/
def buildHeadlinesParams (currentLang : String) (store : StoredSources)
    (o : HeadlineOptions) : Except String (List (String × String)) :=
  match LANGUAGES (resolveLang o.language currentLang) with
  | none => .error ("Unsupported language: " ++ resolveLang o.language currentLang)
  | some languageConfig =>
    match categoryOf o.category with
    | .error e => .error e
    | .ok category =>
      match validatePageNumber o.page with
      | .error e => .error e
      | .ok page =>
        .ok ((([("language", languageConfig.apiLanguage),
                ("pageSize", toString (resolvePageSize o.pageSize))]
               ++ (match page with
                   | some p => [("page", toString p)]
                   | none => []))
              ++ (match category with
                  | some cat => if cat = "all" then [] else [("category", cat)]
                  | none => []))
             ++ (if 0 < (getSelectedSourcesForLanguage store (resolveLang o.language currentLang)).length
                 then [("sources",
                        joinWith "," (getSelectedSourcesForLanguage store
                          (resolveLang o.language currentLang)))]
                 else []))

/-- The validation and parameter construction phase of `searchNews`,
parameterized by the file's `validateAndSanitizeQuery` (the two service
files use different allow-list regexes). `!options.q` rejects a missing or
empty query before validation. -/
def buildSearchParamsWith (qvalidate : String → Except String String)
    (currentLang : String) (store : StoredSources)
    (o : SearchOptions) : Except String (List (String × String)) :=
  match o.q with
  | none => .error "Search query (q) is required"
  | some q0 =>
    if q0 = "" then .error "Search query (q) is required"
    else
      match qvalidate q0 with
      | .error e => .error e
      | .ok query =>
        match LANGUAGES (resolveLang o.language currentLang) with
        | none => .error ("Unsupported language: " ++ resolveLang o.language currentLang)
        | some languageConfig =>
          match validatePageNumber o.page with
          | .error e => .error e
          | .ok page =>
            .ok (([("q", query), ("language", languageConfig.apiLanguage),
                   ("sortBy", resolveSortBy o.sortBy),
                   ("pageSize", toString (resolvePageSize o.pageSize))]
                  ++ (match page with
                      | some p => [("page", toString p)]
                      | none => []))
                 ++ (if 0 < (getSelectedSourcesForLanguage store (resolveLang o.language currentLang)).length
                     then [("sources",
                            joinWith "," (getSelectedSourcesForLanguage store
                              (resolveLang o.language currentLang)))]
                     else []))

/-! ## The proxy-only service of `src/unnamed/part_011` -/

namespace NewsApiProxy

/-- The allow-listed punctuation of the part_011 search-query regex
`[a-zA-Z0-9\s\-.,&()'"/+:;?!]` (characters given by code point to keep the
listing unambiguous). -/
def queryPunct : List Char :=
  ([45, 46, 44, 38, 40, 41, 39, 34, 47, 43, 58, 59, 63, 33] : List Nat).map Char.ofNat

/-- Membership in the part_011 query character class. -/
def queryAllowedChar (c : Char) : Bool :=
  c.isAlpha || c.isDigit || jsIsWhitespace c || queryPunct.contains c

/-- `validateAndSanitizeQuery` of `src/unnamed/part_011`: trim, reject
empty, reject length over 500, reject any character outside the allow-list
(the anchored regex `^[...]+$` on a non-empty string is equivalent to every
character being in the class). -/
def validateAndSanitizeQuery (query : String) : Except String String :=
  if (jsTrim query).length = 0 then .error "Search query cannot be empty"
  else if (jsTrim query).length > 500 then .error "Search query cannot exceed 500 characters"
  else if !((jsTrim query).toList.all queryAllowedChar) then
    .error "Search contains invalid characters"
  else .ok (jsTrim query)

/-- `CACHE_DURATION = 5 * 60 * 1000` milliseconds. -/
def CACHE_DURATION : Nat := 5 * 60 * 1000

/-- One entry of the response cache: `{ data, timestamp }`. -/
structure CacheEntry where
  data : Payload
  timestamp : Nat
deriving DecidableEq

/-- The `cache` Map, modelled as an association list where an earlier
binding shadows later ones (Map.set is modelled by `setCachedData`). -/
abbrev Cache := List (String × CacheEntry)

/-- `getCachedData` of part_011: return the entry's data when it is younger
than `CACHE_DURATION`; delete an expired entry; `Date.now()` is the `now`
argument. Returns the possibly-updated cache alongside the result. -/
def getCachedData (key : String) (now : Nat) (cache : Cache) : Option Payload × Cache :=
  match cache.lookup key with
  | some cached =>
    if now - cached.timestamp < CACHE_DURATION then (some cached.data, cache)
    else (none, cache.filter (fun e => e.1 != key))
  | none => (none, cache)

/-- `setCachedData` of part_011: `cache.set(key, { data, timestamp: Date.now() })`. -/
def setCachedData (key : String) (data : Payload) (now : Nat) (cache : Cache) : Cache :=
  (key, ⟨data, now⟩) :: cache.filter (fun e => e.1 != key)

/-- `handleResponseError` of part_011: map a non-ok response to the error
message the service throws. -/
def handleResponseError (status : Nat) (statusText : String) : String :=
  if status = 401 then "Proxy authentication failed. Check backend configuration."
  else if status = 403 then "Access denied: Backend may not have API key configured."
  else if status = 429 then "Rate limit exceeded: Too many requests. Please try again later."
  else if status = 500 then "Proxy server error: Backend service temporarily unavailable."
  else "API Error: " ++ toString status ++ " " ++ statusText

/-- The body of `fetchWithRetry`'s `for` loop. `fuel` is the number of loop
iterations left (`retries - i`); `i` is the current attempt index; `ds`
accumulates the `waitTime` values slept between attempts. Returns the
result, the number of `fetch` calls performed, and the delays. A 429 with
retries left waits `1000 * (i + 1)` ms and retries; any other thrown error
is retried only when its message contains `fetch` or `network` (the
messages produced by `handleResponseError` never do); the final iteration
rethrows whatever error it observes. The fuel-0 case corresponds to
`retries = 0`, where the JS loop body never runs. -/
def fetchWithRetryLoop (net : Nat → NetResponse) (retries : Nat) :
    Nat → Nat → List Nat → Except String Payload × Nat × List Nat
  | 0, i, ds => (.error "fetchWithRetry: no attempts made", i, ds)
  | fuel + 1, i, ds =>
    match net i with
    | .ok body => (.ok body, i + 1, ds)
    | .httpErr status statusText =>
      if status = 429 ∧ i < retries - 1 then
        fetchWithRetryLoop net retries fuel (i + 1) (ds ++ [1000 * (i + 1)])
      else
        let e := handleResponseError status statusText
        if i = retries - 1 then (.error e, i + 1, ds)
        else if jsIncludes e "fetch" || jsIncludes e "network" then
          fetchWithRetryLoop net retries fuel (i + 1) (ds ++ [1000 * (i + 1)])
        else (.error e, i + 1, ds)
    | .netFail message =>
      if i = retries - 1 then (.error message, i + 1, ds)
      else if jsIncludes message "fetch" || jsIncludes message "network" then
        fetchWithRetryLoop net retries fuel (i + 1) (ds ++ [1000 * (i + 1)])
      else (.error message, i + 1, ds)

/-- `fetchWithRetry` of part_011 at its default `retries = 3` (no caller
passes a different value). `net i` is the outcome of the `i`-th `fetch`. -/
def fetchWithRetry (net : Nat → NetResponse) : Except String Payload × Nat × List Nat :=
  fetchWithRetryLoop net 3 3 0 []

/-- The shared cache-then-network tail of `fetchTopHeadlines` and
`searchNews`: return a fresh cached payload without fetching, otherwise
fetch with retry and cache a successful body. The `Nat` component counts
`fetch` calls issued by this call. -/
def runCached (key : String) (now : Nat) (net : Nat → NetResponse) (cache : Cache) :
    Except String Payload × Cache × Nat :=
  match getCachedData key now cache with
  | (some cachedData, cache1) => (.ok cachedData, cache1, 0)
  | (none, cache1) =>
    match fetchWithRetry net with
    | (.ok data, attempts, _) => (.ok data, setCachedData key data now cache1, attempts)
    | (.error e, attempts, _) => (.error e, cache1, attempts)

/-- `fetchTopHeadlines` of part_011: validate and build parameters, then
consult the cache under the `top-headlines:` namespace, fetching (with
retry) and caching on a miss. -/
def fetchTopHeadlines (currentLang : String) (store : StoredSources) (now : Nat)
    (net : Nat → NetResponse) (o : HeadlineOptions) (cache : Cache) :
    Except String Payload × Cache × Nat :=
  match buildHeadlinesParams currentLang store o with
  | .error e => (.error e, cache, 0)
  | .ok ps => runCached ("top-headlines:" ++ paramsToString ps) now net cache

/-- `searchNews` of part_011: same pipeline under the `search:` cache
namespace, with the part_011 query validator. -/
def searchNews (currentLang : String) (store : StoredSources) (now : Nat)
    (net : Nat → NetResponse) (o : SearchOptions) (cache : Cache) :
    Except String Payload × Cache × Nat :=
  match buildSearchParamsWith validateAndSanitizeQuery currentLang store o with
  | .error e => (.error e, cache, 0)
  | .ok ps => runCached ("search:" ++ paramsToString ps) now net cache

/-- `getHeaders` of part_011: constant, no credential is ever attached (the
proxy backend holds the key). -/
def getHeaders : List (String × String) :=
  [("Content-Type", "application/json")]

end NewsApiProxy

/-! ## The direct/forwarding service of `src/src/services/newsApi.js` -/

namespace NewsApi

/-- The environment configuration the module reads at load time:
`VUE_APP_NEWS_API_KEY` and `VUE_APP_VERCEL_API_URL` (`none` models an
unset variable). -/
structure ApiConfig where
  apiKey : Option String
  vercelUrl : Option String

/-- JS truthiness of an environment string. -/
def optTruthy : Option String → Bool
  | some s => s != ""
  | none => false

/-- `USE_PROXY = Boolean(import.meta.env.VUE_APP_VERCEL_API_URL)`. -/
def USE_PROXY (cfg : ApiConfig) : Bool :=
  optTruthy cfg.vercelUrl

/-- `BASE_URL`: the forwarding URL when configured, else the NewsAPI origin. -/
def BASE_URL (cfg : ApiConfig) : String :=
  match cfg.vercelUrl with
  | some u => if u = "" then "https://newsapi.org/v2" else u
  | none => "https://newsapi.org/v2"

/-- `getHeaders` of newsApi.js: `X-Api-Key` is attached only in direct mode
and only when a key is configured. -/
def getHeaders (cfg : ApiConfig) : List (String × String) :=
  if !USE_PROXY cfg && optTruthy cfg.apiKey then
    [("Content-Type", "application/json"), ("X-Api-Key", cfg.apiKey.getD "")]
  else
    [("Content-Type", "application/json")]

/-- `buildApiUrl` of newsApi.js: forwarding mode sends every parameter to
the proxy base URL; direct mode addresses the endpoint as a path segment. -/
def buildApiUrl (cfg : ApiConfig) (endpoint : String) (ps : List (String × String)) : String :=
  if USE_PROXY cfg then BASE_URL cfg ++ "?" ++ paramsToString ps
  else BASE_URL cfg ++ "/" ++ endpoint ++ "?" ++ paramsToString ps

/-- `handleResponseError` of newsApi.js. -/
def handleResponseError (status : Nat) (statusText : String) : String :=
  if status = 401 then
    "Authentication failed: Invalid API key. Check your VUE_APP_NEWS_API_KEY environment variable."
  else if status = 403 then "Access denied: Your API key may not have permission for this endpoint."
  else if status = 429 then "Rate limit exceeded: Too many requests. Please try again later."
  else if status = 500 then "Server error: The API service is temporarily unavailable."
  else "API Error: " ++ toString status ++ " " ++ statusText

/-- First character class of the newsApi.js query regex
`[a-zA-Z0-9\s\-.,&()']` (code points 45 46 44 38 40 41 39). -/
def wordCharA (c : Char) : Bool :=
  c.isAlpha || c.isDigit || jsIsWhitespace c ||
  (([45, 46, 44, 38, 40, 41, 39] : List Nat).map Char.ofNat).contains c

/-- Second character class of the newsApi.js query regex
`[a-zA-Z0-9\-.,&()"']` (code points 45 46 44 38 40 41 34 39; no `\s`). -/
def wordCharB (c : Char) : Bool :=
  c.isAlpha || c.isDigit ||
  (([45, 46, 44, 38, 40, 41, 34, 39] : List Nat).map Char.ofNat).contains c

/-- Backtracking matcher for `cls+` followed by a continuation: consume one
or more `cls` characters, trying every split point. -/
def plusThen (cls : Char → Bool) (k : List Char → Bool) : List Char → Bool
  | [] => false
  | c :: cs => cls c && (k cs || plusThen cls k cs)

/-- Matcher for `(\s B+)*` anchored at the end of input; `fuel` bounds the
number of groups (any value at least the input length is exact). -/
def groupsRest : Nat → List Char → Bool
  | _, [] => true
  | 0, _ :: _ => false
  | fuel + 1, c :: cs => jsIsWhitespace c && plusThen wordCharB (groupsRest fuel) cs

/-- The anchored newsApi.js query regex
`^[a-zA-Z0-9\s\-.,&()']+([\s][a-zA-Z0-9\-.,&()"']+)*$`. -/
def matchesQueryRegexV1 (s : String) : Bool :=
  plusThen wordCharA (groupsRest s.toList.length) s.toList

/-- `validateAndSanitizeQuery` of newsApi.js: same trim and length rules as
part_011, with the word-structured allow-list regex. -/
def validateAndSanitizeQuery (query : String) : Except String String :=
  if (jsTrim query).length = 0 then .error "Search query cannot be empty"
  else if (jsTrim query).length > 500 then .error "Search query cannot exceed 500 characters"
  else if !matchesQueryRegexV1 (jsTrim query) then .error "Search contains invalid characters"
  else .ok (jsTrim query)

/-- `fetchTopHeadlines` of newsApi.js: validate and build parameters, build
the request for the active mode, `fetch` once, and surface non-ok responses
through `handleResponseError`. The second component lists the requests this
call sent. -/
def fetchTopHeadlines (cfg : ApiConfig) (currentLang : String) (store : StoredSources)
    (net : NetResponse) (o : HeadlineOptions) : Except String Payload × List Request :=
  match buildHeadlinesParams currentLang store o with
  | .error e => (.error e, [])
  | .ok ps =>
    let req : Request := ⟨buildApiUrl cfg "top-headlines" ps, getHeaders cfg⟩
    match net with
    | .ok data => (.ok data, [req])
    | .httpErr status statusText => (.error (handleResponseError status statusText), [req])
    | .netFail message => (.error message, [req])

/-- `searchNews` of newsApi.js: same transport, `everything` endpoint, with
the newsApi.js query validator. -/
def searchNews (cfg : ApiConfig) (currentLang : String) (store : StoredSources)
    (net : NetResponse) (o : SearchOptions) : Except String Payload × List Request :=
  match buildSearchParamsWith validateAndSanitizeQuery currentLang store o with
  | .error e => (.error e, [])
  | .ok ps =>
    let req : Request := ⟨buildApiUrl cfg "everything" ps, getHeaders cfg⟩
    match net with
    | .ok data => (.ok data, [req])
    | .httpErr status statusText => (.error (handleResponseError status statusText), [req])
    | .netFail message => (.error message, [req])

end NewsApi

/-- The `totalResults.value = Math.min(data.totalResults, 100)` step of the
home view (`src/src/components/home.vue`), where the display clamp lives. -/
def homeTotalResults (data : Payload) : Int :=
  min data.totalResults 100

/-! ## Concrete instances used by witnesses -/

/-- A small successful payload. -/
def demoPayload : Payload := ⟨"ok", 2, [⟨"T", "u"⟩]⟩

/-- A network oracle that always succeeds with `demoPayload`. -/
def demoNet : Nat → NetResponse := fun _ => .ok demoPayload

/-- Default headline options (all fields absent). -/
def demoHeadOpts : HeadlineOptions := ⟨none, none, .undef, .undef⟩

/-- Search options with only a query. -/
def demoSearchOpts : SearchOptions := ⟨some "tech news", none, none, .undef, .undef⟩

/-- The cache produced by a first default headlines call at time 0. -/
def demoHeadCache : NewsApiProxy.Cache :=
  [("top-headlines:language=en&pageSize=20", ⟨demoPayload, 0⟩)]

/-- The cache produced by a first `demoSearchOpts` search call at time 0. -/
def demoSearchCache : NewsApiProxy.Cache :=
  [("search:q=tech news&language=en&sortBy=publishedAt&pageSize=20", ⟨demoPayload, 0⟩)]

/-- A server payload reporting far more results than the retrievable window,
with an article whose title and url are empty. -/
def bigPayload : Payload := ⟨"ok", 5000, [⟨"", ""⟩]⟩

/-- A network oracle that is rate-limited on every attempt. -/
def net429 : Nat → NetResponse := fun _ => .httpErr 429 "Too Many Requests"

/-- Search options with no query at all. -/
def emptyQOpts : SearchOptions := ⟨none, none, none, .undef, .undef⟩

/-! ## Helper lemmas -/

/-- The retry loop performs at least `i` fetches when entered at index `i`. -/
theorem fetchWithRetryLoop_attempts_ge (net : Nat → NetResponse) (retries : Nat) :
    ∀ fuel i ds, i ≤ (NewsApiProxy.fetchWithRetryLoop net retries fuel i ds).2.1 := by
  intro fuel
  induction fuel with
  | zero => intro i ds; exact Nat.le_refl i
  | succ n ih =>
    intro i ds
    cases hn : net i with
    | ok b => simp [NewsApiProxy.fetchWithRetryLoop, hn]
    | httpErr s st =>
      simp only [NewsApiProxy.fetchWithRetryLoop, hn]
      split_ifs <;>
        first
          | exact le_trans (Nat.le_succ i) (ih (i + 1) _)
          | exact Nat.le_succ i
    | netFail m =>
      simp only [NewsApiProxy.fetchWithRetryLoop, hn]
      split_ifs <;>
        first
          | exact le_trans (Nat.le_succ i) (ih (i + 1) _)
          | exact Nat.le_succ i

/-- With fuel left, the retry loop performs at least one more fetch. -/
theorem fetchWithRetryLoop_attempts_ge1 (net : Nat → NetResponse) (retries : Nat) :
    ∀ fuel i ds, i + 1 ≤ (NewsApiProxy.fetchWithRetryLoop net retries (fuel + 1) i ds).2.1 := by
  intro fuel i ds
  cases hn : net i with
  | ok b => simp [NewsApiProxy.fetchWithRetryLoop, hn]
  | httpErr s st =>
    simp only [NewsApiProxy.fetchWithRetryLoop, hn]
    split_ifs <;>
      first
        | exact fetchWithRetryLoop_attempts_ge net retries fuel (i + 1) _
        | exact Nat.le_refl (i + 1)
  | netFail m =>
    simp only [NewsApiProxy.fetchWithRetryLoop, hn]
    split_ifs <;>
      first
        | exact fetchWithRetryLoop_attempts_ge net retries fuel (i + 1) _
        | exact Nat.le_refl (i + 1)

/-- The retry loop performs at most `i + fuel` fetches. -/
theorem fetchWithRetryLoop_attempts_le (net : Nat → NetResponse) (retries : Nat) :
    ∀ fuel i ds, (NewsApiProxy.fetchWithRetryLoop net retries fuel i ds).2.1 ≤ i + fuel := by
  intro fuel
  induction fuel with
  | zero => intro i ds; exact Nat.le_refl i
  | succ n ih =>
    intro i ds
    cases hn : net i with
    | ok b => simp [NewsApiProxy.fetchWithRetryLoop, hn]
    | httpErr s st =>
      simp only [NewsApiProxy.fetchWithRetryLoop, hn]
      split_ifs <;>
        first
          | exact le_trans (ih (i + 1) _) (by omega)
          | exact Nat.succ_le_succ (Nat.le_add_right i n)
    | netFail m =>
      simp only [NewsApiProxy.fetchWithRetryLoop, hn]
      split_ifs <;>
        first
          | exact le_trans (ih (i + 1) _) (by omega)
          | exact Nat.succ_le_succ (Nat.le_add_right i n)

/-- `fetchWithRetry` always performs at least one fetch. -/
theorem fetchWithRetry_attempts_pos (net : Nat → NetResponse) :
    1 ≤ (NewsApiProxy.fetchWithRetry net).2.1 := by
  unfold NewsApiProxy.fetchWithRetry
  exact fetchWithRetryLoop_attempts_ge1 net 3 2 0 []

/-- A first successful fetch returns immediately with one attempt. -/
theorem fetchWithRetry_first_ok (net : Nat → NetResponse) (p : Payload)
    (h : net 0 = .ok p) : NewsApiProxy.fetchWithRetry net = (.ok p, 1, []) := by
  unfold NewsApiProxy.fetchWithRetry
  cases hn : net 0 with
  | ok b => rw [h] at hn; injection hn with hb; subst hb; simp [NewsApiProxy.fetchWithRetryLoop, h]
  | httpErr s st => rw [h] at hn; cases hn
  | netFail m => rw [h] at hn; cases hn

/-- A cached call that succeeded via the network leaves its payload in the
cache, keyed by its canonical key and stamped with its call time. -/
theorem runCached_stores (key : String) (now : Nat) (net : Nat → NetResponse)
    (cache st1 : NewsApiProxy.Cache) (p : Payload) (n1 : Nat)
    (h : NewsApiProxy.runCached key now net cache = (.ok p, st1, n1)) (hn : 0 < n1) :
    st1.lookup key = some ⟨p, now⟩ := by
  unfold NewsApiProxy.runCached at h
  rcases hg : NewsApiProxy.getCachedData key now cache with ⟨od, c1⟩
  rw [hg] at h
  cases od with
  | some d =>
    simp only [Prod.mk.injEq] at h
    omega
  | none =>
    rcases hf : NewsApiProxy.fetchWithRetry net with ⟨res, att, ds⟩
    rw [hf] at h
    cases res with
    | ok data =>
      simp only [Prod.mk.injEq, Except.ok.injEq] at h
      obtain ⟨hp, hst, _⟩ := h
      subst hp; subst hst
      simp [NewsApiProxy.setCachedData, List.lookup]
    | error e => simp at h

/-- A cached call served by a fresh entry returns the stored payload, leaves
the cache unchanged, and performs no fetch. -/
theorem runCached_hit (key : String) (now : Nat) (net : Nat → NetResponse)
    (cache : NewsApiProxy.Cache) (e : NewsApiProxy.CacheEntry)
    (hl : cache.lookup key = some e)
    (hfresh : now - e.timestamp < NewsApiProxy.CACHE_DURATION) :
    NewsApiProxy.runCached key now net cache = (.ok e.data, cache, 0) := by
  unfold NewsApiProxy.runCached NewsApiProxy.getCachedData
  rw [hl]
  simp [hfresh]

/-- A cached call whose entry has expired performs at least one fetch. -/
theorem runCached_expired_fetches (key : String) (now : Nat) (net : Nat → NetResponse)
    (cache : NewsApiProxy.Cache) (e : NewsApiProxy.CacheEntry)
    (hl : cache.lookup key = some e)
    (hstale : ¬ now - e.timestamp < NewsApiProxy.CACHE_DURATION) :
    1 ≤ (NewsApiProxy.runCached key now net cache).2.2 := by
  unfold NewsApiProxy.runCached NewsApiProxy.getCachedData
  rw [hl]
  simp only [if_neg hstale]
  have hp := fetchWithRetry_attempts_pos net
  rcases hf : NewsApiProxy.fetchWithRetry net with ⟨res, att, ds⟩
  rw [hf] at hp
  cases res <;> simpa using hp

/-- The idempotence core shared by both cached operations: after a call that
hit the network and succeeded, an identical call within the TTL is a pure
cache hit, and an identical call at or past the TTL fetches again. -/
theorem runCached_idem (key : String) (now1 now2 now3 : Nat)
    (net1 net2 net3 : Nat → NetResponse) (cache0 st1 : NewsApiProxy.Cache)
    (p : Payload) (n1 : Nat)
    (h : NewsApiProxy.runCached key now1 net1 cache0 = (.ok p, st1, n1)) (hn : 0 < n1)
    (hfresh : now2 - now1 < NewsApiProxy.CACHE_DURATION)
    (hstale : ¬ now3 - now1 < NewsApiProxy.CACHE_DURATION) :
    NewsApiProxy.runCached key now2 net2 st1 = (.ok p, st1, 0) ∧
    1 ≤ (NewsApiProxy.runCached key now3 net3 st1).2.2 := by
  have hstore := runCached_stores key now1 net1 cache0 st1 p n1 h hn
  exact ⟨runCached_hit key now2 net2 st1 ⟨p, now1⟩ hstore hfresh,
         runCached_expired_fetches key now3 net3 st1 ⟨p, now1⟩ hstore hstale⟩

/-- Successful headline parameter construction decomposes into its stages:
every prefix of the parameter list is determined by the validated inputs. -/
theorem buildHeadlinesParams_ok_shape (currentLang : String) (store : StoredSources)
    (o : HeadlineOptions) (ps : List (String × String))
    (h : buildHeadlinesParams currentLang store o = .ok ps) :
    ∃ languageConfig category page,
      LANGUAGES (resolveLang o.language currentLang) = some languageConfig ∧
      categoryOf o.category = .ok category ∧
      validatePageNumber o.page = .ok page ∧
      ps = [("language", languageConfig.apiLanguage),
            ("pageSize", toString (resolvePageSize o.pageSize))]
           ++ (match page with | some p => [("page", toString p)] | none => [])
           ++ (match category with
               | some cat => if cat = "all" then [] else [("category", cat)]
               | none => [])
           ++ (if 0 < (getSelectedSourcesForLanguage store (resolveLang o.language currentLang)).length
               then [("sources",
                      joinWith "," (getSelectedSourcesForLanguage store (resolveLang o.language currentLang)))]
               else []) := by
  unfold buildHeadlinesParams at h
  cases hl : LANGUAGES (resolveLang o.language currentLang) with
  | none => simp only [hl] at h; exact Except.noConfusion h
  | some languageConfig =>
    simp only [hl] at h
    cases hc : categoryOf o.category with
    | error e => simp only [hc] at h; exact Except.noConfusion h
    | ok category =>
      simp only [hc] at h
      cases hp : validatePageNumber o.page with
      | error e => simp only [hp] at h; exact Except.noConfusion h
      | ok page =>
        simp only [hp, Except.ok.injEq] at h
        exact ⟨languageConfig, category, page, rfl, rfl, rfl, h.symm⟩

/-- Successful search parameter construction decomposes into its stages. -/
theorem buildSearchParamsWith_ok_shape (qv : String → Except String String)
    (currentLang : String) (store : StoredSources)
    (o : SearchOptions) (ps : List (String × String))
    (h : buildSearchParamsWith qv currentLang store o = .ok ps) :
    ∃ q0 query languageConfig page,
      o.q = some q0 ∧ q0 ≠ "" ∧ qv q0 = .ok query ∧
      LANGUAGES (resolveLang o.language currentLang) = some languageConfig ∧
      validatePageNumber o.page = .ok page ∧
      ps = [("q", query), ("language", languageConfig.apiLanguage),
            ("sortBy", resolveSortBy o.sortBy),
            ("pageSize", toString (resolvePageSize o.pageSize))]
           ++ (match page with | some p => [("page", toString p)] | none => [])
           ++ (if 0 < (getSelectedSourcesForLanguage store (resolveLang o.language currentLang)).length
               then [("sources",
                      joinWith "," (getSelectedSourcesForLanguage store (resolveLang o.language currentLang)))]
               else []) := by
  unfold buildSearchParamsWith at h
  cases hq : o.q with
  | none => simp only [hq] at h; exact Except.noConfusion h
  | some q0 =>
    simp only [hq] at h
    by_cases hq0 : q0 = ""
    · simp only [if_pos hq0] at h; exact Except.noConfusion h
    · simp only [if_neg hq0] at h
      cases hv : qv q0 with
      | error e => simp only [hv] at h; exact Except.noConfusion h
      | ok query =>
        simp only [hv] at h
        cases hl : LANGUAGES (resolveLang o.language currentLang) with
        | none => simp only [hl] at h; exact Except.noConfusion h
        | some languageConfig =>
          simp only [hl] at h
          cases hp : validatePageNumber o.page with
          | error e => simp only [hp] at h; exact Except.noConfusion h
          | ok page =>
            simp only [hp, Except.ok.injEq] at h
            exact ⟨q0, query, languageConfig, page, rfl, hq0, hv, rfl, rfl, h.symm⟩

/-! ## Claim theorems -/

/-- C3: a 429 response is retried up to 3 total attempts with linearly
increasing delays of 1000 ms then 2000 ms between attempts, and the last
observed failure is surfaced after exhaustion; a 401, 403 or 500 response
is surfaced immediately after a single attempt with no delay; no execution
ever exceeds 3 attempts. -/
theorem claim3_retry_policy :
    (∀ (net : Nat → NetResponse) (statusText : String),
      (∀ i, i < 3 → net i = .httpErr 429 statusText) →
      NewsApiProxy.fetchWithRetry net =
        (.error (NewsApiProxy.handleResponseError 429 statusText), 3, [1000, 2000])) ∧
    (∀ (net : Nat → NetResponse) (statusText : String) (s : Nat),
      s = 401 ∨ s = 403 ∨ s = 500 → net 0 = .httpErr s statusText →
      NewsApiProxy.fetchWithRetry net =
        (.error (NewsApiProxy.handleResponseError s statusText), 1, [])) ∧
    (∀ net : Nat → NetResponse, (NewsApiProxy.fetchWithRetry net).2.1 ≤ 3) := by
  refine ⟨?_, ?_, ?_⟩
  · intro net statusText h
    have h0 := h 0 (by norm_num)
    have h1 := h 1 (by norm_num)
    have h2 := h 2 (by norm_num)
    unfold NewsApiProxy.fetchWithRetry
    simp only [NewsApiProxy.fetchWithRetryLoop, h0, h1, h2]
    norm_num
  · intro net statusText s hs hnet
    unfold NewsApiProxy.fetchWithRetry
    rcases hs with h | h | h <;> subst h <;>
      simp only [NewsApiProxy.fetchWithRetryLoop, hnet] <;> rfl
  · intro net
    exact fetchWithRetryLoop_attempts_le net 3 3 0 []

/-- C3 witness: an always-429 oracle yields exactly three attempts, delays
of one and two seconds, and the rate-limit failure. -/
theorem claim3_witness :
    NewsApiProxy.fetchWithRetry net429 =
      (.error (NewsApiProxy.handleResponseError 429 "Too Many Requests"), 3, [1000, 2000]) :=
  claim3_retry_policy.1 net429 "Too Many Requests" (fun _ _ => rfl)

/-- C1: when a `fetchTopHeadlines` (or `searchNews`) call succeeds through
the network, an identical call — same resolved canonical parameters —
within `CACHE_DURATION` of it returns the same payload with zero fetches
and leaves the cache unchanged, while an identical call at or beyond
`CACHE_DURATION` performs at least one new fetch. -/
theorem claim1_cache_idempotence :
    (∀ (currentLang : String) (store : StoredSources) (o1 o2 : HeadlineOptions)
       (now1 now2 now3 : Nat) (net1 net2 net3 : Nat → NetResponse)
       (cache0 st1 : NewsApiProxy.Cache) (p : Payload) (n1 : Nat),
      NewsApiProxy.fetchTopHeadlines currentLang store now1 net1 o1 cache0 = (.ok p, st1, n1) →
      0 < n1 →
      buildHeadlinesParams currentLang store o2 = buildHeadlinesParams currentLang store o1 →
      now2 - now1 < NewsApiProxy.CACHE_DURATION →
      ¬ now3 - now1 < NewsApiProxy.CACHE_DURATION →
      NewsApiProxy.fetchTopHeadlines currentLang store now2 net2 o2 st1 = (.ok p, st1, 0) ∧
      1 ≤ (NewsApiProxy.fetchTopHeadlines currentLang store now3 net3 o2 st1).2.2) ∧
    (∀ (currentLang : String) (store : StoredSources) (o1 o2 : SearchOptions)
       (now1 now2 now3 : Nat) (net1 net2 net3 : Nat → NetResponse)
       (cache0 st1 : NewsApiProxy.Cache) (p : Payload) (n1 : Nat),
      NewsApiProxy.searchNews currentLang store now1 net1 o1 cache0 = (.ok p, st1, n1) →
      0 < n1 →
      buildSearchParamsWith NewsApiProxy.validateAndSanitizeQuery currentLang store o2 =
        buildSearchParamsWith NewsApiProxy.validateAndSanitizeQuery currentLang store o1 →
      now2 - now1 < NewsApiProxy.CACHE_DURATION →
      ¬ now3 - now1 < NewsApiProxy.CACHE_DURATION →
      NewsApiProxy.searchNews currentLang store now2 net2 o2 st1 = (.ok p, st1, 0) ∧
      1 ≤ (NewsApiProxy.searchNews currentLang store now3 net3 o2 st1).2.2) := by
  constructor
  · intro currentLang store o1 o2 now1 now2 now3 net1 net2 net3 cache0 st1 p n1 h hn hsame hfresh hstale
    unfold NewsApiProxy.fetchTopHeadlines at h ⊢
    cases hb : buildHeadlinesParams currentLang store o1 with
    | error e => simp only [hb] at h; simp at h
    | ok ps =>
      simp only [hb] at h
      simp only [hsame, hb]
      exact runCached_idem _ now1 now2 now3 net1 net2 net3 cache0 st1 p n1 h hn hfresh hstale
  · intro currentLang store o1 o2 now1 now2 now3 net1 net2 net3 cache0 st1 p n1 h hn hsame hfresh hstale
    unfold NewsApiProxy.searchNews at h ⊢
    cases hb : buildSearchParamsWith NewsApiProxy.validateAndSanitizeQuery currentLang store o1 with
    | error e => simp only [hb] at h; simp at h
    | ok ps =>
      simp only [hb] at h
      simp only [hsame, hb]
      exact runCached_idem _ now1 now2 now3 net1 net2 net3 cache0 st1 p n1 h hn hfresh hstale

/-- C1 witness: a second default headlines call (and search call) one second
after a successful first call is a pure cache hit; a call at the TTL
boundary fetches again. -/
theorem claim1_witness :
    (NewsApiProxy.fetchTopHeadlines "en" .absent 1000 demoNet demoHeadOpts demoHeadCache
       = (.ok demoPayload, demoHeadCache, 0) ∧
     1 ≤ (NewsApiProxy.fetchTopHeadlines "en" .absent 300000 demoNet demoHeadOpts demoHeadCache).2.2) ∧
    (NewsApiProxy.searchNews "en" .absent 1000 demoNet demoSearchOpts demoSearchCache
       = (.ok demoPayload, demoSearchCache, 0) ∧
     1 ≤ (NewsApiProxy.searchNews "en" .absent 300000 demoNet demoSearchOpts demoSearchCache).2.2) :=
  ⟨claim1_cache_idempotence.1 "en" .absent demoHeadOpts demoHeadOpts 0 1000 300000
     demoNet demoNet demoNet [] demoHeadCache demoPayload 1
     rfl (by norm_num) rfl (by decide) (by decide),
   claim1_cache_idempotence.2 "en" .absent demoSearchOpts demoSearchOpts 0 1000 300000
     demoNet demoNet demoNet [] demoSearchCache demoPayload 1
     rfl (by norm_num) rfl (by decide) (by decide)⟩

/-- C2 counterexample: a successful `fetchTopHeadlines` call returns the
server payload as-is — a reported `totalResults` of 5000 is not clamped to
100, and an article with empty title and url is passed through. -/
theorem claim2_counterexample :
    (NewsApiProxy.fetchTopHeadlines "en" .absent 0 (fun _ => .ok bigPayload) demoHeadOpts []).1
      = .ok bigPayload ∧
    bigPayload.totalResults = 5000 ∧
    ¬ bigPayload.totalResults ≤ 100 ∧
    bigPayload.articles.map Article.title = [""] ∧
    bigPayload.articles.map Article.url = [""] :=
  ⟨rfl, rfl, by decide, rfl, rfl⟩

/-- C2 amended: `fetchTopHeadlines` and `searchNews` return the upstream
payload unmodified — no clamping of `totalResults` and no filtering of
articles happens in the service; the clamp of the displayed total to at
most 100 is applied downstream by the home view (`homeTotalResults`). -/
theorem claim2_amended_passthrough :
    (∀ (currentLang : String) (store : StoredSources) (now : Nat)
       (net : Nat → NetResponse) (o : HeadlineOptions)
       (cache cache1 : NewsApiProxy.Cache) (ps : List (String × String)) (p : Payload),
      buildHeadlinesParams currentLang store o = .ok ps →
      NewsApiProxy.getCachedData ("top-headlines:" ++ paramsToString ps) now cache = (none, cache1) →
      net 0 = .ok p →
      NewsApiProxy.fetchTopHeadlines currentLang store now net o cache =
        (.ok p, NewsApiProxy.setCachedData ("top-headlines:" ++ paramsToString ps) p now cache1, 1)) ∧
    (∀ (currentLang : String) (store : StoredSources) (now : Nat)
       (net : Nat → NetResponse) (o : SearchOptions)
       (cache cache1 : NewsApiProxy.Cache) (ps : List (String × String)) (p : Payload),
      buildSearchParamsWith NewsApiProxy.validateAndSanitizeQuery currentLang store o = .ok ps →
      NewsApiProxy.getCachedData ("search:" ++ paramsToString ps) now cache = (none, cache1) →
      net 0 = .ok p →
      NewsApiProxy.searchNews currentLang store now net o cache =
        (.ok p, NewsApiProxy.setCachedData ("search:" ++ paramsToString ps) p now cache1, 1)) ∧
    (∀ data : Payload, homeTotalResults data ≤ 100) := by
  refine ⟨?_, ?_, ?_⟩
  · intro currentLang store now net o cache cache1 ps p hb hmiss hnet
    unfold NewsApiProxy.fetchTopHeadlines
    simp only [hb]
    unfold NewsApiProxy.runCached
    simp only [hmiss, fetchWithRetry_first_ok net p hnet]
  · intro currentLang store now net o cache cache1 ps p hb hmiss hnet
    unfold NewsApiProxy.searchNews
    simp only [hb]
    unfold NewsApiProxy.runCached
    simp only [hmiss, fetchWithRetry_first_ok net p hnet]
  · intro data
    exact min_le_right _ _

/-- C2 witness: with `bigPayload` on the wire, the service stores and
returns it unmodified, while the home view clamp stays at 100. -/
theorem claim2_witness :
    NewsApiProxy.fetchTopHeadlines "en" .absent 0 (fun _ => .ok bigPayload) demoHeadOpts [] =
      (.ok bigPayload,
       NewsApiProxy.setCachedData
         ("top-headlines:" ++ paramsToString [("language", "en"), ("pageSize", "20")])
         bigPayload 0 [], 1) ∧
    homeTotalResults bigPayload ≤ 100 :=
  ⟨claim2_amended_passthrough.1 "en" .absent 0 (fun _ => .ok bigPayload) demoHeadOpts [] []
     [("language", "en"), ("pageSize", "20")] bigPayload rfl rfl rfl,
   claim2_amended_passthrough.2.2 bigPayload⟩

/-- C4 counterexample: in direct mode (`vercelUrl = none`) with no
credential configured (`apiKey = none`), a valid `fetchTopHeadlines` call
does not fail fast: it sends one network request and returns whatever the
network answers. -/
theorem claim4_counterexample :
    (NewsApi.fetchTopHeadlines ⟨none, none⟩ "en" .absent (.ok demoPayload) demoHeadOpts).2.length
      = 1 ∧
    (NewsApi.fetchTopHeadlines ⟨none, none⟩ "en" .absent (.ok demoPayload) demoHeadOpts).1
      = .ok demoPayload :=
  ⟨rfl, rfl⟩

/-- C4 amended: in direct mode with no credential configured, the module
only warns at load time; every call whose validation passes still issues
exactly one network request, and that request carries no credential — its
headers are exactly the Content-Type header. There is no MissingCredential
fail-fast path in the service. -/
theorem claim4_amended_no_failfast :
    ∀ (currentLang : String) (store : StoredSources) (net : NetResponse)
      (o : HeadlineOptions) (so : SearchOptions),
      NewsApi.getHeaders ⟨none, none⟩ = [("Content-Type", "application/json")] ∧
      (NewsApi.fetchTopHeadlines ⟨none, none⟩ currentLang store net o).2.length =
        (match buildHeadlinesParams currentLang store o with
         | .ok _ => 1
         | .error _ => 0) ∧
      (NewsApi.fetchTopHeadlines ⟨none, none⟩ currentLang store net o).2.all
        (fun r => r.headers == [("Content-Type", "application/json")]) = true ∧
      (NewsApi.searchNews ⟨none, none⟩ currentLang store net so).2.length =
        (match buildSearchParamsWith NewsApi.validateAndSanitizeQuery currentLang store so with
         | .ok _ => 1
         | .error _ => 0) ∧
      (NewsApi.searchNews ⟨none, none⟩ currentLang store net so).2.all
        (fun r => r.headers == [("Content-Type", "application/json")]) = true := by
  intro currentLang store net o so
  refine ⟨rfl, ?_, ?_, ?_, ?_⟩
  · unfold NewsApi.fetchTopHeadlines
    cases hb : buildHeadlinesParams currentLang store o <;> cases net <;> rfl
  · unfold NewsApi.fetchTopHeadlines
    cases hb : buildHeadlinesParams currentLang store o <;> cases net <;> rfl
  · unfold NewsApi.searchNews
    cases hb : buildSearchParamsWith NewsApi.validateAndSanitizeQuery currentLang store so <;>
      cases net <;> rfl
  · unfold NewsApi.searchNews
    cases hb : buildSearchParamsWith NewsApi.validateAndSanitizeQuery currentLang store so <;>
      cases net <;> rfl

/-- C5: with a forwarding base URL configured, the requests sent by
`fetchTopHeadlines` and `searchNews` are identical for any two credential
configurations, and none of them carries an `X-Api-Key` header; the
part_011 service's headers are the constant Content-Type header. -/
theorem claim5_credential_confinement :
    ∀ (u : String) (k1 k2 : Option String) (currentLang : String) (store : StoredSources)
      (net : NetResponse) (o : HeadlineOptions) (so : SearchOptions),
      u ≠ "" →
      (NewsApi.fetchTopHeadlines ⟨k1, some u⟩ currentLang store net o).2 =
        (NewsApi.fetchTopHeadlines ⟨k2, some u⟩ currentLang store net o).2 ∧
      (NewsApi.fetchTopHeadlines ⟨k1, some u⟩ currentLang store net o).2.all
        (fun r => r.headers == [("Content-Type", "application/json")]) = true ∧
      (NewsApi.searchNews ⟨k1, some u⟩ currentLang store net so).2 =
        (NewsApi.searchNews ⟨k2, some u⟩ currentLang store net so).2 ∧
      (NewsApi.searchNews ⟨k1, some u⟩ currentLang store net so).2.all
        (fun r => r.headers == [("Content-Type", "application/json")]) = true ∧
      NewsApiProxy.getHeaders = [("Content-Type", "application/json")] := by
  intro u k1 k2 currentLang store net o so hu
  have hproxy : ∀ k : Option String, NewsApi.USE_PROXY ⟨k, some u⟩ = true := by
    intro k
    simp [NewsApi.USE_PROXY, NewsApi.optTruthy, hu]
  have hhead : ∀ k : Option String,
      NewsApi.getHeaders ⟨k, some u⟩ = [("Content-Type", "application/json")] := by
    intro k
    unfold NewsApi.getHeaders
    rw [hproxy k]
    simp
  have hurl : ∀ (k : Option String) (endpoint : String) (ps : List (String × String)),
      NewsApi.buildApiUrl ⟨k, some u⟩ endpoint ps = u ++ "?" ++ paramsToString ps := by
    intro k endpoint ps
    unfold NewsApi.buildApiUrl
    rw [hproxy k]
    simp [NewsApi.BASE_URL, hu]
  refine ⟨?_, ?_, ?_, ?_, rfl⟩
  · unfold NewsApi.fetchTopHeadlines
    cases hb : buildHeadlinesParams currentLang store o <;> cases net <;>
      simp [hhead, hurl]
  · unfold NewsApi.fetchTopHeadlines
    cases hb : buildHeadlinesParams currentLang store o <;> cases net <;>
      simp [hhead, hurl]
  · unfold NewsApi.searchNews
    cases hb : buildSearchParamsWith NewsApi.validateAndSanitizeQuery currentLang store so <;>
      cases net <;> simp [hhead, hurl]
  · unfold NewsApi.searchNews
    cases hb : buildSearchParamsWith NewsApi.validateAndSanitizeQuery currentLang store so <;>
      cases net <;> simp [hhead, hurl]

/-- C5 witness: with a concrete forwarding URL, a configured secret versus
no secret produces the same single request, without a credential header. -/
theorem claim5_witness :
    (NewsApi.fetchTopHeadlines ⟨some "SECRET", some "https://proxy.example/api"⟩ "en" .absent
       (.ok demoPayload) demoHeadOpts).2 =
      (NewsApi.fetchTopHeadlines ⟨none, some "https://proxy.example/api"⟩ "en" .absent
       (.ok demoPayload) demoHeadOpts).2 ∧
    (NewsApi.fetchTopHeadlines ⟨some "SECRET", some "https://proxy.example/api"⟩ "en" .absent
       (.ok demoPayload) demoHeadOpts).2.all
      (fun r => r.headers == [("Content-Type", "application/json")]) = true :=
  ⟨(claim5_credential_confinement "https://proxy.example/api" (some "SECRET") none "en" .absent
      (.ok demoPayload) demoHeadOpts demoSearchOpts (by decide)).1,
   (claim5_credential_confinement "https://proxy.example/api" (some "SECRET") none "en" .absent
      (.ok demoPayload) demoHeadOpts demoSearchOpts (by decide)).2.1⟩

/-- A search call whose parameter construction fails returns that error,
touches no cache entry, and performs no fetch. -/
theorem searchNews_build_error (currentLang : String) (store : StoredSources) (now : Nat)
    (net : Nat → NetResponse) (o : SearchOptions) (cache : NewsApiProxy.Cache) (e : String)
    (h : buildSearchParamsWith NewsApiProxy.validateAndSanitizeQuery currentLang store o
           = .error e) :
    NewsApiProxy.searchNews currentLang store now net o cache = (.error e, cache, 0) := by
  unfold NewsApiProxy.searchNews
  simp only [h]

/-- A headlines call whose parameter construction fails returns that error,
touches no cache entry, and performs no fetch. -/
theorem fetchTopHeadlines_build_error (currentLang : String) (store : StoredSources) (now : Nat)
    (net : Nat → NetResponse) (o : HeadlineOptions) (cache : NewsApiProxy.Cache) (e : String)
    (h : buildHeadlinesParams currentLang store o = .error e) :
    NewsApiProxy.fetchTopHeadlines currentLang store now net o cache = (.error e, cache, 0) := by
  unfold NewsApiProxy.fetchTopHeadlines
  simp only [h]

/-- The part_011 query validator rejects a query that trims to empty. -/
theorem vasq_empty (q : String) (h : jsTrim q = "") :
    NewsApiProxy.validateAndSanitizeQuery q = .error "Search query cannot be empty" := by
  unfold NewsApiProxy.validateAndSanitizeQuery
  rw [h]
  rfl

/-- The part_011 query validator rejects a query longer than 500 characters
after trimming. -/
theorem vasq_toolong (q : String) (h : 500 < (jsTrim q).length) :
    NewsApiProxy.validateAndSanitizeQuery q =
      .error "Search query cannot exceed 500 characters" := by
  unfold NewsApiProxy.validateAndSanitizeQuery
  rw [if_neg (by omega), if_pos h]

/-- The part_011 query validator rejects a query with a character outside
the allow-list. -/
theorem vasq_badchar (q : String) (h0 : (jsTrim q).length ≠ 0)
    (h1 : ¬ 500 < (jsTrim q).length)
    (h2 : (jsTrim q).toList.all NewsApiProxy.queryAllowedChar = false) :
    NewsApiProxy.validateAndSanitizeQuery q = .error "Search contains invalid characters" := by
  unfold NewsApiProxy.validateAndSanitizeQuery
  rw [if_neg h0, if_neg h1, if_pos (by rw [h2]; rfl)]

/-- A successful run of the part_011 query validator returns the trimmed
query. -/
theorem vasq_ok (q s : String) (h : NewsApiProxy.validateAndSanitizeQuery q = .ok s) :
    s = jsTrim q := by
  unfold NewsApiProxy.validateAndSanitizeQuery at h
  split_ifs at h
  all_goals
    first
      | exact Except.noConfusion h
      | (injection h with h; exact h.symm)

/-- C6: `searchNews` fails before any network call when the query is
missing, empty, whitespace-only after trimming, longer than 500 characters
after trimming, or contains a character outside the allow-list of letters,
digits, whitespace and the listed punctuation; otherwise the trimmed query
is the `q` parameter of the outgoing request. -/
theorem claim6_query_validation :
    (∀ (currentLang : String) (store : StoredSources) (now : Nat) (net : Nat → NetResponse)
       (o : SearchOptions) (cache : NewsApiProxy.Cache),
      o.q = none →
      NewsApiProxy.searchNews currentLang store now net o cache =
        (.error "Search query (q) is required", cache, 0)) ∧
    (∀ (currentLang : String) (store : StoredSources) (now : Nat) (net : Nat → NetResponse)
       (o : SearchOptions) (cache : NewsApiProxy.Cache),
      o.q = some "" →
      NewsApiProxy.searchNews currentLang store now net o cache =
        (.error "Search query (q) is required", cache, 0)) ∧
    (∀ (currentLang : String) (store : StoredSources) (now : Nat) (net : Nat → NetResponse)
       (o : SearchOptions) (cache : NewsApiProxy.Cache) (q : String),
      o.q = some q → q ≠ "" → jsTrim q = "" →
      NewsApiProxy.searchNews currentLang store now net o cache =
        (.error "Search query cannot be empty", cache, 0)) ∧
    (∀ (currentLang : String) (store : StoredSources) (now : Nat) (net : Nat → NetResponse)
       (o : SearchOptions) (cache : NewsApiProxy.Cache) (q : String),
      o.q = some q → q ≠ "" → 500 < (jsTrim q).length →
      NewsApiProxy.searchNews currentLang store now net o cache =
        (.error "Search query cannot exceed 500 characters", cache, 0)) ∧
    (∀ (currentLang : String) (store : StoredSources) (now : Nat) (net : Nat → NetResponse)
       (o : SearchOptions) (cache : NewsApiProxy.Cache) (q : String),
      o.q = some q → q ≠ "" → (jsTrim q).length ≠ 0 → ¬ 500 < (jsTrim q).length →
      (jsTrim q).toList.all NewsApiProxy.queryAllowedChar = false →
      NewsApiProxy.searchNews currentLang store now net o cache =
        (.error "Search contains invalid characters", cache, 0)) ∧
    (∀ (currentLang : String) (store : StoredSources) (o : SearchOptions)
       (q : String) (ps : List (String × String)),
      o.q = some q →
      buildSearchParamsWith NewsApiProxy.validateAndSanitizeQuery currentLang store o = .ok ps →
      ∃ rest, ps = ("q", jsTrim q) :: rest) := by
  refine ⟨?_, ?_, ?_, ?_, ?_, ?_⟩
  · intro currentLang store now net o cache hq
    refine searchNews_build_error _ _ _ _ _ _ _ ?_
    unfold buildSearchParamsWith
    simp only [hq]
  · intro currentLang store now net o cache hq
    refine searchNews_build_error _ _ _ _ _ _ _ ?_
    unfold buildSearchParamsWith
    simp only [hq]
    rfl
  · intro currentLang store now net o cache q hq hne htrim
    refine searchNews_build_error _ _ _ _ _ _ _ ?_
    unfold buildSearchParamsWith
    simp only [hq, if_neg hne, vasq_empty q htrim]
  · intro currentLang store now net o cache q hq hne hlong
    refine searchNews_build_error _ _ _ _ _ _ _ ?_
    unfold buildSearchParamsWith
    simp only [hq, if_neg hne, vasq_toolong q hlong]
  · intro currentLang store now net o cache q hq hne h0 h1 h2
    refine searchNews_build_error _ _ _ _ _ _ _ ?_
    unfold buildSearchParamsWith
    simp only [hq, if_neg hne, vasq_badchar q h0 h1 h2]
  · intro currentLang store o q ps hq hb
    obtain ⟨q0, query, languageConfig, page, hq0, -, hv, -, -, hps⟩ :=
      buildSearchParamsWith_ok_shape _ _ _ _ _ hb
    rw [hq] at hq0
    injection hq0 with hq0
    subst hq0
    have hquery := vasq_ok q query hv
    subst hps
    subst hquery
    cases page with
    | none =>
      exact ⟨("language", languageConfig.apiLanguage) :: ("sortBy", resolveSortBy o.sortBy) ::
             ("pageSize", toString (resolvePageSize o.pageSize)) ::
             (if 0 < (getSelectedSourcesForLanguage store (resolveLang o.language currentLang)).length
              then [("sources",
                     joinWith "," (getSelectedSourcesForLanguage store
                       (resolveLang o.language currentLang)))]
              else []), by simp⟩
    | some p =>
      exact ⟨("language", languageConfig.apiLanguage) :: ("sortBy", resolveSortBy o.sortBy) ::
             ("pageSize", toString (resolvePageSize o.pageSize)) :: ("page", toString p) ::
             (if 0 < (getSelectedSourcesForLanguage store (resolveLang o.language currentLang)).length
              then [("sources",
                     joinWith "," (getSelectedSourcesForLanguage store
                       (resolveLang o.language currentLang)))]
              else []), by simp⟩

set_option maxRecDepth 4000 in
/-- C6 witness: a missing query and a 501-character query both fail before
the network with the corresponding messages. -/
theorem claim6_witness :
    NewsApiProxy.searchNews "en" .absent 0 demoNet emptyQOpts [] =
      (.error "Search query (q) is required", [], 0) ∧
    NewsApiProxy.searchNews "en" .absent 0 demoNet
      ⟨some (String.mk (List.replicate 501 (Char.ofNat 97))), none, none, .undef, .undef⟩ [] =
      (.error "Search query cannot exceed 500 characters", [], 0) :=
  ⟨claim6_query_validation.1 "en" .absent 0 demoNet emptyQOpts [] rfl,
   claim6_query_validation.2.2.2.1 "en" .absent 0 demoNet
     ⟨some (String.mk (List.replicate 501 (Char.ofNat 97))), none, none, .undef, .undef⟩ []
     (String.mk (List.replicate 501 (Char.ofNat 97))) rfl (by decide) (by decide)⟩

/-- C7 counterexample: the claim's clamp-into-[1,100] reading fails at
`pageSize = 0`: the code's `parseInt(...) || 20` treats 0 as falsy, so the
outgoing request carries the default 20 where a clamp would give 1. -/
theorem claim7_counterexample :
    buildHeadlinesParams "en" .absent ⟨none, none, .undef, .int 0⟩ =
      .ok [("language", "en"), ("pageSize", "20")] ∧
    resolvePageSize (.int 0) = 20 ∧
    min (max (0 : Int) 1) 100 = 1 ∧
    resolvePageSize (.int 0) ≠ min (max (0 : Int) 1) 100 :=
  ⟨rfl, by decide, by decide, by decide⟩

/-- C7 amended: pageSize never causes a failure; the value placed in the
outgoing request is always in [1,100]; a nonzero numeric input is clamped
into [1,100]; an absent, non-numeric, or zero input yields the default 20;
and success or failure of a call never depends on the pageSize field. -/
theorem claim7_amended_pagesize :
    (∀ j : JsOpt, 1 ≤ resolvePageSize j ∧ resolvePageSize j ≤ 100) ∧
    (∀ n : Int, resolvePageSize (.int n) = if n = 0 then 20 else min (max n 1) 100) ∧
    (resolvePageSize .undef = 20 ∧ resolvePageSize .nan = 20) ∧
    (∀ (currentLang : String) (store : StoredSources) (o : HeadlineOptions)
       (ps : List (String × String)),
      buildHeadlinesParams currentLang store o = .ok ps →
      ps.lookup "pageSize" = some (toString (resolvePageSize o.pageSize))) ∧
    (∀ (qv : String → Except String String) (currentLang : String) (store : StoredSources)
       (so : SearchOptions) (ps : List (String × String)),
      buildSearchParamsWith qv currentLang store so = .ok ps →
      ps.lookup "pageSize" = some (toString (resolvePageSize so.pageSize))) ∧
    (∀ (currentLang : String) (store : StoredSources) (o : HeadlineOptions) (j j' : JsOpt),
      isOkB (buildHeadlinesParams currentLang store ⟨o.language, o.category, o.page, j⟩) =
        isOkB (buildHeadlinesParams currentLang store ⟨o.language, o.category, o.page, j'⟩)) := by
  refine ⟨?_, ?_, ⟨by decide, by decide⟩, ?_, ?_, ?_⟩
  · intro j
    cases j with
    | undef => exact ⟨by decide, by decide⟩
    | nan => exact ⟨by decide, by decide⟩
    | int n =>
      simp only [resolvePageSize]
      by_cases h : n = 0
      · rw [if_pos h]; exact ⟨by decide, by decide⟩
      · rw [if_neg h]; constructor <;> omega
  · intro n
    simp only [resolvePageSize]
    by_cases h : n = 0
    · rw [if_pos h, if_pos h]; decide
    · rw [if_neg h, if_neg h]
  · intro currentLang store o ps h
    obtain ⟨cfg, category, page, -, -, -, hps⟩ := buildHeadlinesParams_ok_shape _ _ _ _ h
    subst hps
    rfl
  · intro qv currentLang store so ps h
    obtain ⟨q0, query, cfg, page, -, -, -, -, -, hps⟩ := buildSearchParamsWith_ok_shape _ _ _ _ _ h
    subst hps
    rfl
  · intro currentLang store o j j'
    unfold buildHeadlinesParams
    cases LANGUAGES (resolveLang o.language currentLang) <;>
      cases categoryOf o.category <;>
        cases validatePageNumber o.page <;> rfl

/-- C7 witness: an over-large pageSize is clamped, and the default request
carries the pageSize the resolver produced. -/
theorem claim7_witness :
    (resolvePageSize (.int 150) = if (150 : Int) = 0 then 20 else min (max (150 : Int) 1) 100) ∧
    List.lookup "pageSize" [("language", "en"), ("pageSize", "20")] =
      some (toString (resolvePageSize demoHeadOpts.pageSize)) :=
  ⟨claim7_amended_pagesize.2.1 150,
   claim7_amended_pagesize.2.2.2.1 "en" .absent demoHeadOpts
     [("language", "en"), ("pageSize", "20")] rfl⟩

/-- C8: validation of the page option — values parsing below 1 or above 100
(or to NaN) fail with the corresponding page error before any network
call; 1 and 100 are accepted; an absent page validates and is omitted from
the outgoing request, while an accepted page appears in it verbatim. -/
theorem claim8_page_validation :
    (∀ n : Int, n < 1 →
      validatePageNumber (.int n) = .error "Page number must be a positive integer") ∧
    (∀ n : Int, 100 < n →
      validatePageNumber (.int n) = .error "Page number cannot exceed 100") ∧
    (∀ n : Int, 1 ≤ n → n ≤ 100 → validatePageNumber (.int n) = .ok (some n)) ∧
    (validatePageNumber .undef = .ok none ∧
     validatePageNumber .nan = .error "Page number must be a positive integer") ∧
    (∀ (currentLang : String) (store : StoredSources) (o : HeadlineOptions)
       (ps : List (String × String)),
      o.page = .undef → buildHeadlinesParams currentLang store o = .ok ps →
      ps.lookup "page" = none) ∧
    (∀ (currentLang : String) (store : StoredSources) (o : HeadlineOptions)
       (ps : List (String × String)) (n : Int),
      o.page = .int n → buildHeadlinesParams currentLang store o = .ok ps →
      ps.lookup "page" = some (toString n)) ∧
    (∀ (currentLang : String) (store : StoredSources) (now : Nat) (net : Nat → NetResponse)
       (o : HeadlineOptions) (cache : NewsApiProxy.Cache) (cfg : LanguageConfig)
       (cat : Option String) (n : Int),
      LANGUAGES (resolveLang o.language currentLang) = some cfg →
      categoryOf o.category = .ok cat →
      o.page = .int n → n < 1 ∨ 100 < n →
      NewsApiProxy.fetchTopHeadlines currentLang store now net o cache =
        (.error (if n < 1 then "Page number must be a positive integer"
                 else "Page number cannot exceed 100"), cache, 0)) := by
  refine ⟨?_, ?_, ?_, ⟨rfl, rfl⟩, ?_, ?_, ?_⟩
  · intro n h
    simp only [validatePageNumber]
    rw [if_pos h]
  · intro n h
    simp only [validatePageNumber]
    rw [if_neg (by omega), if_pos (by omega)]
  · intro n h1 h2
    simp only [validatePageNumber]
    rw [if_neg (by omega), if_neg (by omega)]
  · intro currentLang store o ps ho h
    obtain ⟨cfg, category, page, -, -, hp, hps⟩ := buildHeadlinesParams_ok_shape _ _ _ _ h
    rw [ho] at hp
    simp only [validatePageNumber, Except.ok.injEq] at hp
    subst hp
    subst hps
    rcases category with - | c
    · split_ifs <;> rfl
    · by_cases hcall : c = "all"
      · subst hcall; split_ifs <;> rfl
      · simp only [if_neg hcall]; split_ifs <;> rfl
  · intro currentLang store o ps n ho h
    obtain ⟨cfg, category, page, -, -, hp, hps⟩ := buildHeadlinesParams_ok_shape _ _ _ _ h
    rw [ho] at hp
    simp only [validatePageNumber] at hp
    split_ifs at hp
    injection hp with hp
    subst hp
    subst hps
    rcases category with - | c
    · split_ifs <;> rfl
    · by_cases hcall : c = "all"
      · subst hcall; split_ifs <;> rfl
      · simp only [if_neg hcall]; split_ifs <;> rfl
  · intro currentLang store now net o cache cfg cat n hl hc ho hn
    rcases hn with h1 | h2
    · rw [if_pos h1]
      refine fetchTopHeadlines_build_error _ _ _ _ _ _ _ ?_
      unfold buildHeadlinesParams
      simp only [hl, hc, ho, validatePageNumber, if_pos h1]
    · rw [if_neg (by omega)]
      refine fetchTopHeadlines_build_error _ _ _ _ _ _ _ ?_
      unfold buildHeadlinesParams
      simp only [hl, hc, ho, validatePageNumber]
      rw [if_neg (by omega), if_pos (by omega)]

/-- C8 witness: pages 0 and 101 are rejected with the two messages, pages 1
and 100 are accepted, and a page-0 headlines call fails with no fetch. -/
theorem claim8_witness :
    validatePageNumber (.int 0) = .error "Page number must be a positive integer" ∧
    validatePageNumber (.int 101) = .error "Page number cannot exceed 100" ∧
    validatePageNumber (.int 1) = .ok (some 1) ∧
    validatePageNumber (.int 100) = .ok (some 100) ∧
    NewsApiProxy.fetchTopHeadlines "en" .absent 0 demoNet ⟨none, none, .int 0, .undef⟩ [] =
      (.error "Page number must be a positive integer", [], 0) :=
  ⟨claim8_page_validation.1 0 (by decide),
   claim8_page_validation.2.1 101 (by decide),
   claim8_page_validation.2.2.1 1 (by decide) (by decide),
   claim8_page_validation.2.2.1 100 (by decide) (by decide),
   claim8_page_validation.2.2.2.2.2.2 "en" .absent 0 demoNet ⟨none, none, .int 0, .undef⟩ []
     ⟨"en", "English", "🇺🇸", "en", ["us", "gb", "au", "ca"], "us"⟩ none 0
     rfl rfl rfl (Or.inl (by decide))⟩

/-- C9: the selected-sources resolver returns the stored list for the
language (empty when absent, malformed, or unset), and the outgoing request
carries a comma-joined `sources` parameter exactly when that list is
non-empty. -/
theorem claim9_source_filter :
    (∀ lang : String, getSelectedSourcesForLanguage .absent lang = [] ∧
       getSelectedSourcesForLanguage .malformed lang = []) ∧
    (∀ (entries : List (String × List String)) (lang : String),
      getSelectedSourcesForLanguage (.parsed entries) lang = (entries.lookup lang).getD []) ∧
    (∀ (currentLang : String) (store : StoredSources) (o : HeadlineOptions)
       (ps : List (String × String)),
      buildHeadlinesParams currentLang store o = .ok ps →
      (getSelectedSourcesForLanguage store (resolveLang o.language currentLang) = [] →
        ps.lookup "sources" = none) ∧
      (getSelectedSourcesForLanguage store (resolveLang o.language currentLang) ≠ [] →
        ps.lookup "sources" =
          some (joinWith ","
            (getSelectedSourcesForLanguage store (resolveLang o.language currentLang))))) ∧
    (∀ (qv : String → Except String String) (currentLang : String) (store : StoredSources)
       (so : SearchOptions) (ps : List (String × String)),
      buildSearchParamsWith qv currentLang store so = .ok ps →
      (getSelectedSourcesForLanguage store (resolveLang so.language currentLang) = [] →
        ps.lookup "sources" = none) ∧
      (getSelectedSourcesForLanguage store (resolveLang so.language currentLang) ≠ [] →
        ps.lookup "sources" =
          some (joinWith ","
            (getSelectedSourcesForLanguage store (resolveLang so.language currentLang))))) := by
  refine ⟨fun lang => ⟨rfl, rfl⟩, ?_, ?_, ?_⟩
  · intro entries lang
    unfold getSelectedSourcesForLanguage
    cases h : entries.lookup lang <;> simp [h]
  · intro currentLang store o ps h
    obtain ⟨cfg, category, page, -, -, -, hps⟩ := buildHeadlinesParams_ok_shape _ _ _ _ h
    subst hps
    constructor
    · intro hsel
      simp only [hsel, List.length_nil, Nat.lt_irrefl, if_false]
      rcases category with - | c
      · cases page <;> rfl
      · by_cases hcall : c = "all"
        · subst hcall; cases page <;> rfl
        · cases page <;> simp only [if_neg hcall] <;> rfl
    · intro hsel
      rw [if_pos (List.length_pos.mpr hsel)]
      rcases category with - | c
      · cases page <;> rfl
      · by_cases hcall : c = "all"
        · subst hcall; cases page <;> rfl
        · cases page <;> simp only [if_neg hcall] <;> rfl
  · intro qv currentLang store so ps h
    obtain ⟨q0, query, cfg, page, -, -, -, -, -, hps⟩ := buildSearchParamsWith_ok_shape _ _ _ _ _ h
    subst hps
    constructor
    · intro hsel
      simp only [hsel, List.length_nil, Nat.lt_irrefl, if_false]
      cases page <;> rfl
    · intro hsel
      rw [if_pos (List.length_pos.mpr hsel)]
      cases page <;> rfl

/-- C9 witness: with `en -> [bbc-news]` and `pt -> []` stored, the English
request carries `sources=bbc-news` and the Portuguese request carries no
sources parameter. -/
theorem claim9_witness :
    List.lookup "sources" [("language", "en"), ("pageSize", "20"), ("sources", "bbc-news")] =
      some (joinWith ","
        (getSelectedSourcesForLanguage (.parsed [("en", ["bbc-news"]), ("pt", [])])
          (resolveLang demoHeadOpts.language "en"))) ∧
    List.lookup "sources" [("language", "pt"), ("pageSize", "20")] = none :=
  ⟨(claim9_source_filter.2.2.1 "en" (.parsed [("en", ["bbc-news"]), ("pt", [])]) demoHeadOpts
      [("language", "en"), ("pageSize", "20"), ("sources", "bbc-news")] rfl).2 (by decide),
   (claim9_source_filter.2.2.1 "pt" (.parsed [("en", ["bbc-news"]), ("pt", [])]) demoHeadOpts
      [("language", "pt"), ("pageSize", "20")] rfl).1 rfl⟩

/-- The category validator accepts any string whose lowercasing is `all`. -/
theorem validateCategory_all (s : String) (hne : s ≠ "") (hlow : jsToLower s = "all") :
    validateCategory s = .ok (some "all") := by
  unfold validateCategory
  rw [if_neg hne, hlow]
  rfl

/-- C10: `all` is one of the valid categories (alongside the seven content
categories), the validator accepts it case-insensitively, and a category
lowercasing to `all` yields exactly the request that omitting the category
yields — no category parameter. -/
theorem claim10_category_all :
    validCategories = ["business", "entertainment", "general", "health", "science",
                       "sports", "technology", "all"] ∧
    validCategories.contains "all" = true ∧
    (∀ s : String, s ≠ "" → jsToLower s = "all" → validateCategory s = .ok (some "all")) ∧
    (∀ (currentLang : String) (store : StoredSources) (o : HeadlineOptions) (s : String),
      o.category = some s → s ≠ "" → jsToLower s = "all" →
      buildHeadlinesParams currentLang store o =
        buildHeadlinesParams currentLang store ⟨o.language, none, o.page, o.pageSize⟩) := by
  refine ⟨rfl, by decide, validateCategory_all, ?_⟩
  intro currentLang store o s hcat hne hlow
  unfold buildHeadlinesParams
  simp only [hcat, categoryOf, if_neg hne, validateCategory_all s hne hlow]
  cases LANGUAGES (resolveLang o.language currentLang) <;>
    cases validatePageNumber o.page <;> rfl

/-- C10 witness: `All` and `ALL` validate to `all`, and an `ALL` request
equals the category-free request. -/
theorem claim10_witness :
    validateCategory "All" = .ok (some "all") ∧
    buildHeadlinesParams "en" .absent ⟨none, some "ALL", .int 2, .int 5⟩ =
      buildHeadlinesParams "en" .absent ⟨none, none, .int 2, .int 5⟩ :=
  ⟨claim10_category_all.2.2.1 "All" (by decide) (by decide),
   claim10_category_all.2.2.2 "en" .absent ⟨none, some "ALL", .int 2, .int 5⟩ "ALL"
     rfl (by decide) (by decide)⟩
